import Mathlib

/-!
Verification development for the HealthyText SMS system
(scheduler, rate/time policy, priority injector, response handler,
phone normalization), shallowly embedded in Lean 4.

Conventions of the embedding:
* Timestamps are integers (milliseconds since the Unix epoch), timezones
  are modelled by their UTC offset in minutes at the instant in question.
* A calendar-date key (`YYYY-MM-DD` in the source) is represented by the
  day number since the epoch: the formatted string is determined
  injectively by that number, so equality of keys coincides.
* SQL updates are modelled as pure state transformers on record types;
  fallible lookups return `Option`.
* JavaScript string falsiness (`null`/`''`) is modelled explicitly where
  the source relies on it.
-/

namespace Scheduler

/-- Result object returned by `isUserDueForMessage` / `checkPostTrialSchedule`
in `adminSummary.js` (MessageScheduler).  The JS objects are heterogeneous;
absent fields are `none`. -/
structure DueResult where
  due : Bool
  messageType : Option String := none
  position : Option Int := none
  messageId : Option String := none
  reason : Option String := none
  deriving Repr, DecidableEq

/-- `checkPostTrialSchedule(user, daysSinceJoined)` from `adminSummary.js`
lines 478-506.  Phase 1 days map to fixed ids `ptmb1..ptmb4` in join order. -/
def checkPostTrialSchedule (daysSinceJoined : Int) : DueResult :=
  let phase1Days : List Int := [8, 10, 13, 17]
  if phase1Days.contains daysSinceJoined then
    let messageOrder := phase1Days.indexOf daysSinceJoined + 1
    { due := true, messageType := some "post-trial-phase1",
      messageId := some ("ptmb" ++ toString messageOrder) }
  else if ([25, 33, 41] : List Int).contains daysSinceJoined then
    { due := true, messageType := some "post-trial-phase2" }
  else if ([71, 101, 131] : List Int).contains daysSinceJoined then
    { due := true, messageType := some "post-trial-phase3" }
  else if daysSinceJoined ≥ 191 ∧ (daysSinceJoined - 191) % 60 = 0 then
    { due := true, messageType := some "post-trial-phase4" }
  else
    { due := false, reason := some "Not scheduled for post-trial message today" }

/-- `isUserDueForMessage(user)` from `adminSummary.js` lines 420-475,
as a pure function of the user fields and the two timezone-aware day
differences the source computes from `moment` before branching. -/
def isUserDueForMessage (userType : String) (trialMessagesSent : Int)
    (currentSequencePosition : Int) (daysSinceLastMessage : Int)
    (daysSinceJoined : Int) : DueResult :=
  if userType = "trial" then
    if trialMessagesSent ≥ 7 then
      checkPostTrialSchedule daysSinceJoined
    else if daysSinceLastMessage ≥ 1 then
      { due := true, messageType := some "trial",
        position := some (trialMessagesSent + 1) }
    else
      { due := false, reason := some "Not due for message yet" }
  else if userType = "subscriber" then
    if currentSequencePosition ≤ 30 then
      if daysSinceLastMessage ≥ 1 then
        { due := true, messageType := some "sequence",
          position := some currentSequencePosition }
      else
        { due := false, reason := some "Not due for message yet" }
    else
      if daysSinceLastMessage ≥ 2 then
        { due := true, messageType := some "algorithm" }
      else
        { due := false, reason := some "Not due for message yet" }
  else
    { due := false, reason := some "Not due for message yet" }

/-- A recipient-local wall-clock instant as the scheduler reads it from
`moment().tz(user.timezone)`: hour, minute, and `day()` (0 = Sunday). -/
structure LocalTime where
  hour : Int
  minute : Int
  weekday : Int
  deriving Repr, DecidableEq

/-- Steps 2-3 of `checkUserForMessage` in `adminSummary.js` lines 363-379:
the rest-day and hour-window policy for scheduled sends.  `none` means the
window checks pass; `some r` is the skip reason (the human-readable time
formatting interpolated into the reason string is elided).  The embedding
is a total function: a policy violation is a reason-valued result, never
an exception. -/
def checkUserWindow (timezoneName : String) (t : LocalTime) : Option String :=
  if t.weekday = 0 then
    some ("Sunday rest day in " ++ timezoneName)
  else if t.hour < 9 ∨ t.hour ≥ 18 then
    some ("Outside sending hours in " ++ timezoneName)
  else
    none

/-- Step 4 of `checkUserForMessage` in `adminSummary.js` lines 381-385:
the daily cap on scheduled sends, given the `daily_limits` counter for
the local date.  `none` means the cap check passes. -/
def schedulerDailyCapCheck (messagesSentToday : Int) : Option String :=
  if messagesSentToday ≥ 4 then some "Daily limit reached (4 messages)" else none

/-- `moment().tz(userTimezone).format('YYYY-MM-DD')` in
`adminSummary.js` (`checkDailyLimit` line 553, `updateUserProgress`
line 577): the recipient-local calendar date, as a day number since the
epoch, for a timezone with UTC offset `offsetMin` minutes. -/
def schedulerDailyKey (offsetMin nowMs : Int) : Int :=
  (nowMs + offsetMin * 60000).fdiv 86400000

/-- `checkDailyLimit(phoneNumber)` from `adminSummary.js` lines 543-568:
read the recipient's `daily_limits` counter for today, where today is
the date in the recipient's own timezone (a missing row reads as 0,
which the total counter map already models). -/
def checkDailyLimit (offsetMin nowMs : Int) (d : Int → Nat) : Nat :=
  d (schedulerDailyKey offsetMin nowMs)

end Scheduler

namespace Injector

/-- `isInSendingWindow(userTimezone)` from `messageInjector.js` lines
245-256: manual injections respect the 9 AM - 6 PM hour window but have
no Sunday restriction.  `none` means `canSend: true`. -/
def isInSendingWindow (t : Scheduler.LocalTime) : Option String :=
  if t.hour < 9 ∨ t.hour ≥ 18 then
    some "Outside sending hours (9 AM - 6 PM)"
  else
    none

/-- The daily-cap test in `processSingleInjection` (`messageInjector.js`
lines 196-201). -/
def injectorDailyCapCheck (messagesSentToday : Int) : Option String :=
  if messagesSentToday ≥ 4 then some "Daily limit reached (4 messages)" else none

/-- `new Date().toISOString().split('T')[0]` in `messageInjector.js`
(`checkDailyLimit` line 232, `updateUserAfterInjection` line 272): the
UTC calendar date, as a day number since the epoch.  Note that unlike the
scheduler this ignores the recipient's timezone. -/
def injectorDailyKey (nowMs : Int) : Int :=
  nowMs.fdiv 86400000

/-- `checkDailyLimit(phoneNumber)` from `messageInjector.js` lines
230-242: read the recipient's `daily_limits` counter for today, where
today is the UTC date regardless of the recipient's timezone. -/
def checkDailyLimit (nowMs : Int) (d : Int → Nat) : Nat :=
  d (injectorDailyKey nowMs)

end Injector

/-- One eligible send attempt against the daily counter: the cap check of
either module followed, on success, by the `daily_limits` increment both
modules perform.  Returns whether the attempt was sent and the new
counter value. -/
def sendAttempt (count : Int) : Bool × Int :=
  match Scheduler.schedulerDailyCapCheck count with
  | some _ => (false, count)
  | none => (true, count + 1)

/-- Outcomes of `k` consecutive eligible send attempts for one recipient
within one local day, starting from counter value `c`. -/
def runAttempts : Nat → Int → List Bool
  | 0, _ => []
  | Nat.succ k, c =>
    let r := sendAttempt c
    r.1 :: runAttempts k r.2

/-- The recipient row of the `users` table, restricted to the columns the
scheduler, injector and response handler read or write. -/
structure UserRec where
  phone : String
  firstName : Option String
  userType : String
  subscriptionStatus : String
  currentSequencePosition : Int
  trialMessagesSent : Int
  totalMessagesSent : Int
  lastMessageSent : Option Int
  dateModified : Option Int
  stoppedAtPosition : Option Int
  awaitingResponse : Option String
  awaitingResponseSince : Option Int
  tzOffsetMin : Int
  dateJoined : Int
  deriving Repr, DecidableEq

/-- The per-recipient `daily_limits` table: counter per date key. -/
def DailyLimits : Type := Int → Nat

/-- The `INSERT OR REPLACE ... COALESCE(old, 0) + 1` upsert both
`updateUserProgress` and `updateUserAfterInjection` run on
`daily_limits`. -/
def bumpDaily (d : DailyLimits) (key : Int) : DailyLimits :=
  fun k => if k = key then d k + 1 else d k

/-- `updateUserProgress(user, messageInfo, messageId)` from
`adminSummary.js` lines 571-618: bump the total counter, set the
last-send and modified timestamps, advance the trial counter or sequence
position according to the message type, and bump the daily counter under
the recipient-local date key. -/
def updateUserProgress (u : UserRec) (d : DailyLimits) (messageType : String)
    (nowMs : Int) : UserRec × DailyLimits :=
  let u1 := { u with
    totalMessagesSent := u.totalMessagesSent + 1,
    lastMessageSent := some nowMs,
    dateModified := some nowMs }
  let u2 :=
    if messageType = "trial" then
      { u1 with trialMessagesSent := u1.trialMessagesSent + 1 }
    else if messageType = "sequence" then
      { u1 with currentSequencePosition := u1.currentSequencePosition + 1 }
    else u1
  (u2, bumpDaily d (Scheduler.schedulerDailyKey u.tzOffsetMin nowMs))

/-- `updateUserAfterInjection(phoneNumber)` from `messageInjector.js`
lines 269-298: bump the total counter, set the last-send and modified
timestamps, and bump the daily counter under the UTC date key.  No
sequence or trial field is touched. -/
def updateUserAfterInjection (u : UserRec) (d : DailyLimits)
    (nowMs : Int) : UserRec × DailyLimits :=
  ({ u with
      totalMessagesSent := u.totalMessagesSent + 1,
      lastMessageSent := some nowMs,
      dateModified := some nowMs },
   bumpDaily d (Injector.injectorDailyKey nowMs))

namespace ResponseHandler

/-- A row of the `messages` catalog as the handlers read it. -/
structure CatalogEntry where
  id : String
  message : String
  active : Bool
  deriving Repr, DecidableEq

/-- `getMessage(messageId)`: `SELECT * FROM messages WHERE id = ? AND
active = 1`. -/
def getMessage (cat : List CatalogEntry) (mid : String) : Option CatalogEntry :=
  cat.find? (fun m => m.id == mid && m.active)

/-- JavaScript `String.prototype.trim()`: remove leading and trailing
whitespace. -/
def jsTrim (s : String) : String :=
  String.mk (((s.data.dropWhile Char.isWhitespace).reverse.dropWhile
    Char.isWhitespace).reverse)

/-- JavaScript `String.prototype.toUpperCase()` on the ASCII inputs this
system handles. -/
def jsToUpper (s : String) : String := String.mk (s.data.map Char.toUpper)

/-- JavaScript `String.prototype.toLowerCase()` on the ASCII inputs this
system handles. -/
def jsToLower (s : String) : String := String.mk (s.data.map Char.toLower)

/-- A row of `message_history` restricted to the columns
`recordInteractiveResponse` touches; list position stands for `rowid`. -/
structure HistRec where
  phone : String
  messageId : String
  userResponded : Bool
  deriving Repr, DecidableEq

/-- `messageText.replace(/\x7bname\x7d/g, firstName)`: global
substitution of the name placeholder (the replacement is not
rescanned). -/
def replaceNameTok : List Char → List Char → List Char
  | '\x7b' :: 'n' :: 'a' :: 'm' :: 'e' :: '\x7d' :: rest, nm =>
    nm ++ replaceNameTok rest nm
  | c :: rest, nm => c :: replaceNameTok rest nm
  | [], _ => []

/-- `.replace(/\x7bname\x7d[,\s]*/g, '')`: drop each name token together
with the following greedy run of commas and whitespace. -/
def removeNameTok : List Char → List Char
  | '\x7b' :: 'n' :: 'a' :: 'm' :: 'e' :: '\x7d' :: rest =>
    removeNameTok (rest.dropWhile (fun c => c == ',' || c.isWhitespace))
  | c :: rest => c :: removeNameTok rest
  | [] => []
termination_by cs => cs.length
decreasing_by
  · have h : ∀ l : List Char,
        (l.dropWhile (fun c => c == ',' || c.isWhitespace)).length ≤ l.length := by
      intro l
      induction l with
      | nil => simp [List.dropWhile]
      | cons a t ih =>
        by_cases hp : (a == ',' || a.isWhitespace) = true
        · simp only [List.dropWhile, hp]
          exact Nat.le_trans ih (Nat.le_succ _)
        · simp [List.dropWhile, hp]
    have h2 := h rest
    simp only [List.length_cons]
    omega
  · simp only [List.length_cons]
    omega

/-- `.replace(/\s+/g, ' ')`: collapse each whitespace run to a single
space; the flag records whether the previous character belonged to a
run. -/
def collapseWsAux : Bool → List Char → List Char
  | _, [] => []
  | prevWs, c :: rest =>
    if c.isWhitespace then
      if prevWs then collapseWsAux true rest
      else ' ' :: collapseWsAux true rest
    else c :: collapseWsAux false rest

/-- `personalizeMessage(messageText, firstName)` as shared verbatim by
the response handler, the scheduler and the injector.  JS truthiness:
both `null` and the empty string take the nameless branch, which strips
the placeholder and tidies whitespace. -/
def personalizeMessage (text : String) (firstName : Option String) : String :=
  match firstName with
  | some nm =>
    if nm = "" then
      jsTrim (String.mk (collapseWsAux false (removeNameTok text.data)))
    else
      String.mk (replaceNameTok text.data nm.data)
  | none =>
    jsTrim (String.mk (collapseWsAux false (removeNameTok text.data)))

/-- The regex character class `[A-D]`: exactly the letters A, B, C, D. -/
def isOptionChar (c : Char) : Bool :=
  c == 'A' || c == 'B' || c == 'C' || c == 'D'

/-- Matches of `/[A-D]\)/g`: scanned left to right, non-overlapping,
each match consuming the letter and its closing parenthesis; the mapped
`.replace(')', '')` keeps the letter. -/
def matchParenAux : Char → List Char → List Char
  | _, [] => []
  | a, b :: rest =>
    if isOptionChar a && b == ')' then
      match rest with
      | [] => [a]
      | c :: rest2 => a :: matchParenAux c rest2
    else matchParenAux b rest

def matchParen : List Char → List Char
  | [] => []
  | a :: rest => matchParenAux a rest

/-- Matches of `/[A-D](?=\/|$)/g`: a letter kept when the lookahead sees
a slash or the end of the string (the lookahead consumes nothing). -/
def matchSlashAux : Char → List Char → List Char
  | a, [] => if isOptionChar a then [a] else []
  | a, b :: rest =>
    (if isOptionChar a && b == '/' then [a] else []) ++ matchSlashAux b rest

def matchSlash : List Char → List Char
  | [] => []
  | a :: rest => matchSlashAux a rest

/-- `extractResponseOptions(messageText)` (response handler lines
369-385): `A)`-style options first, else slash-separated options, else
none (a regex returning no match is `null`, read as the empty list). -/
def extractResponseOptions (text : String) : List String :=
  let ps := matchParen text.data
  if ps ≠ [] then ps.map Char.toString
  else (matchSlash text.data).map Char.toString

def resetDeniedText : String :=
  "RESET is only available for subscribers. Upgrade at healthytext.com to access this feature!"

def genericFollowupText : String :=
  "Thanks for your response! Your wellness journey continues."

/-- The `crisisKeywords` table mapping keyword to response message id. -/
def crisisKeywordLookup (msg : String) : Option String :=
  if msg = "HELP" then some "help_response"
  else if msg = "ANXIETY" then some "anxiety_response"
  else if msg = "STRESS" then some "stress_response"
  else if msg = "PANIC" then some "panic_response"
  else if msg = "CRISIS" then some "crisis_response"
  else if msg = "POSITIVE" then some "positive_response"
  else if msg = "AFFIRM" then some "positive_response"
  else if msg = "BREATHE" then some "breathe_response"
  else if msg = "CALM" then some "calm_response"
  else none

/-- `sendFallbackCrisisResponse` text table; keywords with no entry of
their own (POSITIVE, AFFIRM) fall back to the HELP text. -/
def crisisFallbackText (kw : String) : String :=
  if kw = "ANXIETY" then "Take a deep breath. You\x27re safe right now. Try the 4-7-8 technique: breathe in for 4, hold for 7, out for 8. Repeat 3 times. You\x27ve got this."
  else if kw = "STRESS" then "Stress is temporary. Take 5 slow, deep breaths. Focus on what you can control right now. You\x27re stronger than you think."
  else if kw = "PANIC" then "You\x27re experiencing panic, but you\x27re safe. Ground yourself: name 5 things you see, 4 you hear, 3 you feel, 2 you smell, 1 you taste. This will pass."
  else if kw = "CRISIS" then "If you\x27re in crisis, please reach out immediately: 911 for emergencies, 988 for suicide prevention. You matter and help is available 24/7."
  else if kw = "BREATHE" then "Let\x27s breathe together. In for 4... hold for 4... out for 4... hold for 4. Repeat this pattern. Focus only on your breath."
  else if kw = "CALM" then "Finding calm in the storm. Close your eyes if you can. Take 3 deep breaths. Remember: this feeling is temporary, but your strength is permanent."
  else "We\x27re here to support you. If this is an emergency, please call 911. For mental health support, call 988 (Suicide & Crisis Lifeline). Visit healthytext.com for more resources."

/-- `sendSystemMessage(phoneNumber, messageId)`: look the template up in
the catalog and send it personalized (no send if absent).  The user row
is re-read after the status update; only `first_name` is used, which no
command changes. -/
def sendSystemMessage (ou : Option UserRec) (cat : List CatalogEntry)
    (mid : String) : List (String × String) :=
  match getMessage cat mid with
  | some m => [(personalizeMessage m.message (ou.bind (fun u => u.firstName)), mid)]
  | none => []

/-- `handleSystemCommands(phoneNumber, message)` lines 52-102: `none`
when the message is not a system command; otherwise the updated user
row, the outgoing sends, and the result action. -/
def handleSystemCommands (ou : Option UserRec) (cat : List CatalogEntry)
    (msg : String) : Option (Option UserRec × List (String × String) × String) :=
  if msg = "STOP" then
    let ou2 := ou.map (fun u => { u with
      subscriptionStatus := "stopped",
      stoppedAtPosition := some u.currentSequencePosition })
    some (ou2, sendSystemMessage ou2 cat "34453cds", "stopped")
  else if msg = "START" then
    let ou2 := ou.map (fun u => { u with
      subscriptionStatus := if u.userType = "trial" then "trial" else "active" })
    some (ou2, sendSystemMessage ou2 cat "3452cds3", "started")
  else if msg = "RESET" then
    match ou with
    | some u =>
      if u.userType = "subscriber" then
        let u2 := { u with
          currentSequencePosition := 1, trialMessagesSent := 0,
          subscriptionStatus := "active" }
        some (some u2,
          [("Welcome back " ++ u.firstName.getD "" ++ "! Your Elevate sequence has been reset to message 1. Ready for a fresh start!", "reset_confirm")],
          "reset")
      else
        some (some u, [(resetDeniedText, "reset_denied")], "reset_denied")
    | none => some (none, [(resetDeniedText, "reset_denied")], "reset_denied")
  else none

/-- `handleCrisisKeywords(phoneNumber, message)` lines 105-144: `none`
when the message is not a crisis keyword; otherwise the reply sends.
Never mutates user state. -/
def handleCrisisKeywords (ou : Option UserRec) (cat : List CatalogEntry)
    (msg : String) : Option (List (String × String)) :=
  (crisisKeywordLookup msg).map (fun rid =>
    match getMessage cat rid with
    | some cm => [(personalizeMessage cm.message (ou.bind (fun u => u.firstName)), rid)]
    | none => [(crisisFallbackText msg, "crisis_" ++ jsToLower msg)])

/-- Whether an awaiting-response state has expired: the reply arrived
more than 24 hours (in milliseconds) after `since`.  A null timestamp is
read by `new Date(null)` as the epoch, hence `getD 0`. -/
def awaitingExpired (since : Option Int) (nowMs : Int) : Bool :=
  nowMs > since.getD 0 + 86400000

/-- `clearAwaitingResponse(phoneNumber)`. -/
def clearAwait (u : UserRec) : UserRec :=
  { u with awaitingResponse := none, awaitingResponseSince := none }

/-- Outcome of the interactive step: updated user and history, outgoing
sends, and the action when handled (`none` models `handled:false`, after
which processing falls through). -/
structure InteractiveOutcome where
  user : Option UserRec
  history : List HistRec
  sends : List (String × String)
  action : Option String
  deriving Repr, DecidableEq

/-- Helper for `recordInteractiveResponse`: working from the most recent
row backwards, mark the first `message_history` row matching the phone
and message id. -/
def markFirstRev : List HistRec → String → String → List HistRec
  | [], _, _ => []
  | r :: rest, p, m =>
    if r.phone == p && r.messageId == m then
      { r with userResponded := true } :: rest
    else r :: markFirstRev rest p m

/-- `recordInteractiveResponse(phoneNumber, messageId, response)` lines
338-353: set `user_responded` on the row with the greatest rowid among
those matching the phone and message id (no row changes when none
match). -/
def markLastResponded (h : List HistRec) (p m : String) : List HistRec :=
  (markFirstRev h.reverse p m).reverse

def repromptText (opts : List String) : String :=
  "Please respond with " ++ String.intercalate " or " opts ++ " only. What\x27s your choice?"

/-- `handleInteractiveResponse(phoneNumber, response)` lines 147-221.
With `action = none` the step did not handle the reply (though it may
have cleared an expired or unusable awaiting state). -/
def handleInteractiveResponse (nowMs : Int) (ou : Option UserRec)
    (cat : List CatalogEntry) (hist : List HistRec) (response : String) :
    InteractiveOutcome :=
  match ou with
  | none => ⟨none, hist, [], none⟩
  | some u =>
    match u.awaitingResponse with
    | none => ⟨some u, hist, [], none⟩
    | some aid =>
      if aid = "" then ⟨some u, hist, [], none⟩
      else if awaitingExpired u.awaitingResponseSince nowMs then
        ⟨some (clearAwait u), hist, [], none⟩
      else
        match getMessage cat aid with
        | none => ⟨some (clearAwait u), hist, [], none⟩
        | some om =>
          let validOptions := extractResponseOptions om.message
          if validOptions = [] then ⟨some (clearAwait u), hist, [], none⟩
          else if ¬ validOptions.contains response then
            ⟨some u, hist, [(repromptText validOptions, "invalid_response")],
              some "invalid_response"⟩
          else
            let followUpId := aid ++ jsToLower response
            let sends := match getMessage cat followUpId with
              | some fm => [(personalizeMessage fm.message u.firstName, followUpId)]
              | none => [(genericFollowupText, "generic_followup")]
            ⟨some (clearAwait u), markLastResponded hist u.phone aid, sends,
              some "interactive_response"⟩

/-- `handleUnrecognizedMessage` lines 224-241: the generic help reply. -/
def handleUnrecognizedMessage (ou : Option UserRec) : List (String × String) :=
  [("Hi " ++ ((ou.bind (fun u => u.firstName)).getD "") ++ "! Thanks for your message. Reply HELP for support, or visit healthytext.com for more options. Text STOP to unsubscribe.", "unrecognized_response")]

/-- `messageBody.trim().toUpperCase()` (line 20). -/
def cleanOf (body : String) : String := jsToUpper (jsTrim body)

/-- Result of processing one inbound reply. -/
structure ProcessResult where
  handled : Bool
  action : String
  user : Option UserRec
  history : List HistRec
  sends : List (String × String)
  deriving Repr, DecidableEq

/-- `processIncomingMessage(phoneNumber, messageBody)` lines 17-49, for
one recipient: the world is the `users` row found for the normalized
phone (if any), the active catalog, the recipient's `message_history`
rows, and the current instant.  The embedding covers the non-throwing
executions; the `catch` branch (an unrecoverable internal error) has no
counterpart in a total function. -/
def processIncomingMessage (nowMs : Int) (ou : Option UserRec)
    (cat : List CatalogEntry) (hist : List HistRec) (body : String) :
    ProcessResult :=
  let clean := cleanOf body
  match handleSystemCommands ou cat clean with
  | some r => ⟨true, r.2.2, r.1, hist, r.2.1⟩
  | none =>
    match handleCrisisKeywords ou cat clean with
    | some sends => ⟨true, "crisis_support", ou, hist, sends⟩
    | none =>
      let io := handleInteractiveResponse nowMs ou cat hist clean
      match io.action with
      | some act => ⟨true, act, io.user, io.history, io.sends⟩
      | none =>
        ⟨true, "unrecognized", io.user, io.history,
          handleUnrecognizedMessage io.user⟩

end ResponseHandler

namespace Phones

/-- `phoneNumber.replace(/[^\d]/g, '')`: keep the decimal digits. -/
def digitsOf (s : String) : List Char := s.data.filter Char.isDigit

/-- `normalized.startsWith('1')`. -/
def startsWith1 : List Char → Bool
  | '1' :: _ => true
  | _ => false

/-- `normalizePhoneNumber` from `wordpressSync.js` lines 603-619 (and
identically `test-phone-matching.js` lines 5-22): strip non-digits,
prepend the country code when 10 digits remain, then accept only an
11-digit string starting with 1 (`null` otherwise; the leading guard
also nulls a falsy, i.e. empty, input). -/
def normalizePhoneNumberSync (s : String) : Option String :=
  if s = "" then none
  else
    let n := digitsOf s
    let n := if n.length = 10 then '1' :: n else n
    if n.length ≠ 11 ∨ ¬ startsWith1 n then none
    else some (String.mk ('+' :: n))

/-- `normalizePhoneNumber` from the response handler lines 397-403 (the
inbound-reply boundary): strip non-digits, prepend 1 only when the
result is 10 digits not already starting with 1, and return the result
unconditionally — this boundary has no rejection path. -/
def normalizePhoneNumberHandler (s : String) : String :=
  let n := digitsOf s
  let n := if ¬ startsWith1 n ∧ n.length = 10 then '1' :: n else n
  String.mk ('+' :: n)

/-- The inline normalization in `sendMessage` (`app.js` lines 120-124,
the outbound boundary): identical to the reply-handler variant, also
without validation. -/
def normalizePhoneNumberSend (s : String) : String :=
  let n := digitsOf s
  let n := if ¬ startsWith1 n ∧ n.length = 10 then '1' :: n else n
  String.mk ('+' :: n)

/-- The spec's normalization contract (§6), written from its words for
comparison: strip non-digits; if the resulting length is 10, prepend
country code 1; accept only if the final length is 11 and it starts
with 1; otherwise the identifier is invalid. -/
def specPhoneContract (s : String) : Option String :=
  let n := digitsOf s
  let n := if n.length = 10 then '1' :: n else n
  if n.length = 11 ∧ startsWith1 n then some (String.mk ('+' :: n)) else none

end Phones

open ResponseHandler

/-- Sample world for the interactive-reply witnesses: a subscriber
awaiting a reply to the interactive template q1 with options A and B. -/
def sampleAwaitingUser : UserRec :=
  { phone := "+13125550100", firstName := some "Ann", userType := "subscriber",
    subscriptionStatus := "active", currentSequencePosition := 5,
    trialMessagesSent := 7, totalMessagesSent := 12, lastMessageSent := none,
    dateModified := none, stoppedAtPosition := none,
    awaitingResponse := some "q1", awaitingResponseSince := some 0,
    tzOffsetMin := -360, dateJoined := 0 }

def sampleCatalog : List CatalogEntry :=
  [⟨"q1", "Do you prefer A) tea or B) coffee?", true⟩,
   ⟨"q1b", "Coffee it is, \x7bname\x7d!", true⟩]

def sampleHistory : List HistRec :=
  [⟨"+13125550100", "q1", false⟩, ⟨"+13125550100", "q1", false⟩]

def sampleNoOptUser : UserRec :=
  { sampleAwaitingUser with awaitingResponse := some "q2" }

def sampleNoOptCatalog : List CatalogEntry :=
  [⟨"q2", "How are you today?", true⟩]

/-- C1: for every trial-class recipient with trial-sent count at least 7,
the eligibility evaluator returns due exactly when the whole-day offset
since the join date is one of 8, 10, 13, 17 (phase 1, mapped to the
fixed ids ptmb1..ptmb4 in join order), 25, 33, 41 (phase 2), 71, 101,
131 (phase 3), or at least 191 with the offset minus 191 divisible by 60
(phase 4); on every other day offset it is not due. -/
theorem post_trial_schedule_correct (trialSent seqPos dLast d : Int)
    (h7 : trialSent ≥ 7) :
    ((Scheduler.isUserDueForMessage "trial" trialSent seqPos dLast d).due = true ↔
      (d ∈ ([8, 10, 13, 17, 25, 33, 41, 71, 101, 131] : List Int) ∨
        (191 ≤ d ∧ (d - 191) % 60 = 0)))
    ∧ (d = 8 →
        (Scheduler.isUserDueForMessage "trial" trialSent seqPos dLast d).messageId =
          some "ptmb1")
    ∧ (d = 10 →
        (Scheduler.isUserDueForMessage "trial" trialSent seqPos dLast d).messageId =
          some "ptmb2")
    ∧ (d = 13 →
        (Scheduler.isUserDueForMessage "trial" trialSent seqPos dLast d).messageId =
          some "ptmb3")
    ∧ (d = 17 →
        (Scheduler.isUserDueForMessage "trial" trialSent seqPos dLast d).messageId =
          some "ptmb4") := by
  have hred : Scheduler.isUserDueForMessage "trial" trialSent seqPos dLast d =
      Scheduler.checkPostTrialSchedule d := by
    simp [Scheduler.isUserDueForMessage, h7]
  rw [hred]
  refine ⟨?_, ?_, ?_, ?_, ?_⟩
  · simp only [Scheduler.checkPostTrialSchedule]
    split_ifs with h1 h2 h3 h4 <;> simp_all <;> omega
  · intro h; subst h; decide
  · intro h; subst h; decide
  · intro h; subst h; decide
  · intro h; subst h; decide

/-- Witness for C1 at concrete inputs: with a trial count of 7, day
offsets 191, 251 and 311 are due, 190 and 192 are not, and day 8 selects
the fixed id ptmb1. -/
theorem post_trial_schedule_correct_witness :
    (Scheduler.isUserDueForMessage "trial" 7 1 0 191).due = true
    ∧ (Scheduler.isUserDueForMessage "trial" 7 1 0 251).due = true
    ∧ (Scheduler.isUserDueForMessage "trial" 7 1 0 311).due = true
    ∧ ¬ (Scheduler.isUserDueForMessage "trial" 7 1 0 190).due = true
    ∧ ¬ (Scheduler.isUserDueForMessage "trial" 7 1 0 192).due = true
    ∧ (Scheduler.isUserDueForMessage "trial" 7 1 0 8).messageId = some "ptmb1" := by
  refine ⟨?_, ?_, ?_, ?_, ?_, ?_⟩
  · exact (post_trial_schedule_correct 7 1 0 191 (by decide)).1.mpr (by decide)
  · exact (post_trial_schedule_correct 7 1 0 251 (by decide)).1.mpr (by decide)
  · exact (post_trial_schedule_correct 7 1 0 311 (by decide)).1.mpr (by decide)
  · intro hb
    exact absurd ((post_trial_schedule_correct 7 1 0 190 (by decide)).1.mp hb) (by decide)
  · intro hb
    exact absurd ((post_trial_schedule_correct 7 1 0 192 (by decide)).1.mp hb) (by decide)
  · exact (post_trial_schedule_correct 7 1 0 8 (by decide)).2.1 rfl

/-- C2: a scheduled send passes the rate/time window policy exactly when
the recipient-local hour lies in [9,18) and the local weekday is not
Sunday; a manual injection passes exactly when the hour lies in [9,18),
with no rest-day rule.  Violations are reason-valued results of a total
function, never exceptions.  Local 8:59 and 18:00 are outside the
window, 9:00 and 17:59 inside (shown on a Monday for the scheduler and
on a Sunday for the injector). -/
theorem sending_window_policy (tz : String) (t : Scheduler.LocalTime) :
    (Scheduler.checkUserWindow tz t = none ↔
      (9 ≤ t.hour ∧ t.hour < 18 ∧ t.weekday ≠ 0))
    ∧ (Injector.isInSendingWindow t = none ↔ (9 ≤ t.hour ∧ t.hour < 18))
    ∧ Scheduler.checkUserWindow tz ⟨8, 59, 1⟩ ≠ none
    ∧ Scheduler.checkUserWindow tz ⟨18, 0, 1⟩ ≠ none
    ∧ Scheduler.checkUserWindow tz ⟨9, 0, 1⟩ = none
    ∧ Scheduler.checkUserWindow tz ⟨17, 59, 1⟩ = none
    ∧ Injector.isInSendingWindow ⟨8, 59, 0⟩ ≠ none
    ∧ Injector.isInSendingWindow ⟨18, 0, 0⟩ ≠ none
    ∧ Injector.isInSendingWindow ⟨9, 0, 0⟩ = none
    ∧ Injector.isInSendingWindow ⟨17, 59, 0⟩ = none := by
  refine ⟨?_, ?_, ?_, ?_, ?_, ?_, ?_, ?_, ?_, ?_⟩
  · simp only [Scheduler.checkUserWindow]
    split_ifs with h1 h2 <;> simp_all
    omega
  · simp only [Injector.isInSendingWindow]
    split_ifs with h1 <;> simp_all
    omega
  · simp [Scheduler.checkUserWindow]
  · simp [Scheduler.checkUserWindow]
  · simp [Scheduler.checkUserWindow]
  · simp [Scheduler.checkUserWindow]
  · decide
  · decide
  · decide
  · decide

/-- C3: both the scheduler and the injector reject an otherwise-eligible
send attempt, with a reason result and nothing sent, exactly when the
recipient's daily counter for the local date has reached 4; starting
from a fresh counter, four consecutive eligible attempts succeed and the
fifth is rejected. -/
theorem daily_cap_at_four (n : Int) :
    (Scheduler.schedulerDailyCapCheck n = none ↔ n < 4)
    ∧ (Injector.injectorDailyCapCheck n = none ↔ n < 4)
    ∧ (4 ≤ n →
        Scheduler.schedulerDailyCapCheck n = some "Daily limit reached (4 messages)")
    ∧ (4 ≤ n →
        Injector.injectorDailyCapCheck n = some "Daily limit reached (4 messages)")
    ∧ runAttempts 5 0 = [true, true, true, true, false] := by
  refine ⟨?_, ?_, ?_, ?_, by decide⟩
  · simp only [Scheduler.schedulerDailyCapCheck]
    split_ifs with h <;> simp_all
  · simp only [Injector.injectorDailyCapCheck]
    split_ifs with h <;> simp_all
  · intro h
    simp [Scheduler.schedulerDailyCapCheck, h]
  · intro h
    simp [Injector.injectorDailyCapCheck, h]

/-- Witness for C3: at a counter of 3 the cap check passes (the 4th send
of the day), at 4 it rejects with the reason string. -/
theorem daily_cap_at_four_witness :
    Scheduler.schedulerDailyCapCheck 3 = none
    ∧ Injector.injectorDailyCapCheck 4 = some "Daily limit reached (4 messages)" := by
  exact ⟨(daily_cap_at_four 3).1.mpr (by decide),
         (daily_cap_at_four 4).2.2.2.1 (by decide)⟩

/-- C4 counterexample: at 01:00 UTC of the first epoch day, a recipient
whose timezone is UTC-06:00 (offset -360 minutes, e.g. America/Chicago
in winter) is still on the previous local calendar date, yet the
injector keys the daily counter by the UTC date: the injector's date key
differs from the recipient-local date key the claim requires. -/
theorem injector_daily_key_not_local :
    Injector.injectorDailyKey 3600000 ≠
      Scheduler.schedulerDailyKey (-360) 3600000 := by decide

/-- C4 amended: scheduler reads and updates key the daily counter by the
recipient-local date, the injector's read and update key it by the UTC
date, and under either update the counter value of every date key is
non-decreasing (the touched key is incremented by exactly one). -/
theorem daily_counter_keys_monotone (u : UserRec) (d : DailyLimits)
    (messageType : String) (nowMs k : Int) :
    Scheduler.checkDailyLimit u.tzOffsetMin nowMs d =
      d (Scheduler.schedulerDailyKey u.tzOffsetMin nowMs)
    ∧ Injector.checkDailyLimit nowMs d = d (Injector.injectorDailyKey nowMs)
    ∧ (updateUserProgress u d messageType nowMs).2 =
        bumpDaily d (Scheduler.schedulerDailyKey u.tzOffsetMin nowMs)
    ∧ (updateUserAfterInjection u d nowMs).2 =
        bumpDaily d (Injector.injectorDailyKey nowMs)
    ∧ (updateUserProgress u d messageType nowMs).2
        (Scheduler.schedulerDailyKey u.tzOffsetMin nowMs) =
        d (Scheduler.schedulerDailyKey u.tzOffsetMin nowMs) + 1
    ∧ (updateUserAfterInjection u d nowMs).2 (Injector.injectorDailyKey nowMs) =
        d (Injector.injectorDailyKey nowMs) + 1
    ∧ d k ≤ (updateUserProgress u d messageType nowMs).2 k
    ∧ d k ≤ (updateUserAfterInjection u d nowMs).2 k := by
  refine ⟨rfl, rfl, rfl, rfl, ?_, ?_, ?_, ?_⟩
  · simp [updateUserProgress, bumpDaily]
  · simp [updateUserAfterInjection, bumpDaily]
  · simp only [updateUserProgress, bumpDaily]
    split_ifs <;> omega
  · simp only [updateUserAfterInjection, bumpDaily]
    split_ifs <;> omega

/-- C9: a drained injection updates only the total-sent counter, the
last-send timestamp (and the bookkeeping modification timestamp, a
column outside the spec's data model) and the daily counter; the
sequence position, trial counter and every other recipient field are
unchanged — whereas a scheduler send of a trial or sequence message
additionally advances the trial counter or the sequence position. -/
theorem injection_frame_effect (u : UserRec) (d : DailyLimits) (nowMs : Int) :
    ((updateUserAfterInjection u d nowMs).1).currentSequencePosition =
      u.currentSequencePosition
    ∧ ((updateUserAfterInjection u d nowMs).1).trialMessagesSent =
        u.trialMessagesSent
    ∧ ((updateUserAfterInjection u d nowMs).1).totalMessagesSent =
        u.totalMessagesSent + 1
    ∧ ((updateUserAfterInjection u d nowMs).1).lastMessageSent = some nowMs
    ∧ ((updateUserAfterInjection u d nowMs).1).phone = u.phone
    ∧ ((updateUserAfterInjection u d nowMs).1).firstName = u.firstName
    ∧ ((updateUserAfterInjection u d nowMs).1).userType = u.userType
    ∧ ((updateUserAfterInjection u d nowMs).1).subscriptionStatus =
        u.subscriptionStatus
    ∧ ((updateUserAfterInjection u d nowMs).1).stoppedAtPosition =
        u.stoppedAtPosition
    ∧ ((updateUserAfterInjection u d nowMs).1).awaitingResponse =
        u.awaitingResponse
    ∧ ((updateUserAfterInjection u d nowMs).1).awaitingResponseSince =
        u.awaitingResponseSince
    ∧ ((updateUserAfterInjection u d nowMs).1).tzOffsetMin = u.tzOffsetMin
    ∧ ((updateUserAfterInjection u d nowMs).1).dateJoined = u.dateJoined
    ∧ (updateUserAfterInjection u d nowMs).2 =
        bumpDaily d (Injector.injectorDailyKey nowMs)
    ∧ ((updateUserProgress u d "trial" nowMs).1).trialMessagesSent =
        u.trialMessagesSent + 1
    ∧ ((updateUserProgress u d "trial" nowMs).1).currentSequencePosition =
        u.currentSequencePosition
    ∧ ((updateUserProgress u d "sequence" nowMs).1).currentSequencePosition =
        u.currentSequencePosition + 1
    ∧ ((updateUserProgress u d "sequence" nowMs).1).trialMessagesSent =
        u.trialMessagesSent
    ∧ ((updateUserProgress u d "trial" nowMs).1).totalMessagesSent =
        u.totalMessagesSent + 1
    ∧ ((updateUserProgress u d "sequence" nowMs).1).totalMessagesSent =
        u.totalMessagesSent + 1 := by
  refine ⟨rfl, rfl, rfl, rfl, rfl, rfl, rfl, rfl, rfl, rfl, rfl, rfl, rfl, rfl,
    ?_, ?_, ?_, ?_, ?_, ?_⟩
  · simp [updateUserProgress]
  · simp [updateUserProgress]
  · simp [updateUserProgress]
  · simp [updateUserProgress]
  · simp [updateUserProgress]
  · simp [updateUserProgress]

/-- C8 counterexample: the identifier "123" is invalid under the claimed
contract — the sync-side normalizer rejects it — yet it is not rejected
at every boundary: the inbound reply handler and the outbound send path
normalize it to "+123" and have no rejection path at all. -/
theorem phone_invalid_not_rejected_at_reply_boundary :
    Phones.specPhoneContract "123" = none
    ∧ Phones.normalizePhoneNumberSync "123" = none
    ∧ Phones.normalizePhoneNumberHandler "123" = "+123"
    ∧ Phones.normalizePhoneNumberSend "123" = "+123" := by decide

/-- C8 amended: the WordPress-sync (and phone-matching test) normalizer
satisfies the spec contract exactly — strip non-digits, prepend 1 when
10 digits remain, accept only a final 11-digit string starting with 1 —
while the inbound reply handler and the outbound send path normalize
without validation (prepending 1 only when the 10-digit string does not
already start with 1) and never reject an identifier. -/
theorem phone_normalization_boundaries (s : String) :
    Phones.normalizePhoneNumberSync s = Phones.specPhoneContract s
    ∧ (Phones.normalizePhoneNumberHandler s).data.head? = some '+'
    ∧ Phones.normalizePhoneNumberSend s = Phones.normalizePhoneNumberHandler s := by
  refine ⟨?_, rfl, rfl⟩
  by_cases he : s = ""
  · subst he; decide
  · simp only [Phones.normalizePhoneNumberSync, Phones.specPhoneContract, he,
      if_false]
    generalize (if (Phones.digitsOf s).length = 10 then
      '1' :: Phones.digitsOf s else Phones.digitsOf s) = n
    by_cases h11 : n.length = 11 <;> by_cases hs1 : Phones.startsWith1 n <;>
      simp [h11, hs1]

theorem handleSystemCommands_eq_none (ou : Option UserRec)
    (cat : List CatalogEntry) (msg : String) (h1 : msg ≠ "STOP")
    (h2 : msg ≠ "START") (h3 : msg ≠ "RESET") :
    handleSystemCommands ou cat msg = none := by
  simp [handleSystemCommands, h1, h2, h3]

theorem handleCrisisKeywords_eq_none (ou : Option UserRec)
    (cat : List CatalogEntry) (msg : String)
    (h : crisisKeywordLookup msg = none) :
    handleCrisisKeywords ou cat msg = none := by
  simp [handleCrisisKeywords, h]

/-- C5: every inbound reply is processed in the priority order system
command, crisis keyword, interactive response, fallback — the first
matching step determines the outcome — and the result is handled:true
for every input (the embedded, non-throwing executions; only an
unrecoverable internal error escapes this in the source). -/
theorem reply_pipeline_priority (nowMs : Int) (ou : Option UserRec)
    (cat : List CatalogEntry) (hist : List HistRec) (body : String) :
    (processIncomingMessage nowMs ou cat hist body).handled = true
    ∧ (cleanOf body = "STOP" →
        (processIncomingMessage nowMs ou cat hist body).action = "stopped")
    ∧ (cleanOf body = "START" →
        (processIncomingMessage nowMs ou cat hist body).action = "started")
    ∧ (cleanOf body = "RESET" →
        ((processIncomingMessage nowMs ou cat hist body).action = "reset"
          ∨ (processIncomingMessage nowMs ou cat hist body).action = "reset_denied"))
    ∧ (cleanOf body ≠ "STOP" → cleanOf body ≠ "START" → cleanOf body ≠ "RESET" →
        (crisisKeywordLookup (cleanOf body)).isSome →
        (processIncomingMessage nowMs ou cat hist body).action = "crisis_support")
    ∧ (cleanOf body ≠ "STOP" → cleanOf body ≠ "START" → cleanOf body ≠ "RESET" →
        crisisKeywordLookup (cleanOf body) = none →
        ∀ a, (handleInteractiveResponse nowMs ou cat hist (cleanOf body)).action =
            some a →
          (processIncomingMessage nowMs ou cat hist body).action = a)
    ∧ (cleanOf body ≠ "STOP" → cleanOf body ≠ "START" → cleanOf body ≠ "RESET" →
        crisisKeywordLookup (cleanOf body) = none →
        (handleInteractiveResponse nowMs ou cat hist (cleanOf body)).action = none →
        (processIncomingMessage nowMs ou cat hist body).action = "unrecognized") := by
  refine ⟨?_, ?_, ?_, ?_, ?_, ?_, ?_⟩
  · simp only [processIncomingMessage]
    rcases hs : handleSystemCommands ou cat (cleanOf body) with _ | r
    · rcases hc : handleCrisisKeywords ou cat (cleanOf body) with _ | sends
      · rcases ha : (handleInteractiveResponse nowMs ou cat hist (cleanOf body)).action
          with _ | a
        · simp [ha]
        · simp [ha]
      · simp
    · simp
  · intro h
    simp [processIncomingMessage, h, handleSystemCommands]
  · intro h
    simp [processIncomingMessage, h, handleSystemCommands]
  · intro h
    rcases ou with _ | u
    · simp [processIncomingMessage, h, handleSystemCommands]
    · by_cases ht : u.userType = "subscriber" <;>
        simp [processIncomingMessage, h, handleSystemCommands, ht]
  · intro h1 h2 h3 hk
    have hs := handleSystemCommands_eq_none ou cat (cleanOf body) h1 h2 h3
    obtain ⟨rid, hrid⟩ := Option.isSome_iff_exists.mp hk
    simp [processIncomingMessage, hs, handleCrisisKeywords, hrid]
  · intro h1 h2 h3 hk a ha
    have hs := handleSystemCommands_eq_none ou cat (cleanOf body) h1 h2 h3
    have hc := handleCrisisKeywords_eq_none ou cat (cleanOf body) hk
    simp [processIncomingMessage, hs, hc, ha]
  · intro h1 h2 h3 hk ha
    have hs := handleSystemCommands_eq_none ou cat (cleanOf body) h1 h2 h3
    have hc := handleCrisisKeywords_eq_none ou cat (cleanOf body) hk
    simp [processIncomingMessage, hs, hc, ha]

/-- Witness for C5 at concrete inputs: a STOP command (with surrounding
whitespace and lowercase), a crisis keyword, and an arbitrary text each
take the corresponding step of the pipeline. -/
theorem reply_pipeline_priority_witness :
    (processIncomingMessage 0 none [] [] " stop ").action = "stopped"
    ∧ (processIncomingMessage 0 none [] [] "help").action = "crisis_support"
    ∧ (processIncomingMessage 0 none [] [] "banana").action = "unrecognized" := by
  refine ⟨?_, ?_, ?_⟩
  · exact (reply_pipeline_priority 0 none [] [] " stop ").2.1 (by decide)
  · exact (reply_pipeline_priority 0 none [] [] "help").2.2.2.2.1
      (by decide) (by decide) (by decide) (by decide)
  · exact (reply_pipeline_priority 0 none [] [] "banana").2.2.2.2.2.2
      (by decide) (by decide) (by decide) (by decide) (by decide)

/-- C6: for a recipient awaiting a response on message `aid` within the
24-hour window, whose original template parses to a non-empty option
set: an off-option reply gets a reprompt listing the valid options and
leaves the state (and history) unchanged; an on-option reply `X` sends
the `aid ++ lowercase X` follow-up when present (else the generic
acknowledgment), marks the most recent delivery record of `aid` for that
recipient as responded, and clears the awaiting state. -/
theorem interactive_reply_validation (nowMs : Int) (u : UserRec)
    (cat : List CatalogEntry) (hist : List HistRec) (resp aid : String)
    (tmpl : CatalogEntry)
    (h1 : u.awaitingResponse = some aid) (h2 : aid ≠ "")
    (h3 : awaitingExpired u.awaitingResponseSince nowMs = false)
    (h4 : getMessage cat aid = some tmpl)
    (h5 : extractResponseOptions tmpl.message ≠ []) :
    (resp ∉ extractResponseOptions tmpl.message →
      handleInteractiveResponse nowMs (some u) cat hist resp =
        ⟨some u, hist,
          [(repromptText (extractResponseOptions tmpl.message), "invalid_response")],
          some "invalid_response"⟩)
    ∧ (resp ∈ extractResponseOptions tmpl.message →
        (handleInteractiveResponse nowMs (some u) cat hist resp).action =
          some "interactive_response"
        ∧ (handleInteractiveResponse nowMs (some u) cat hist resp).user =
            some (clearAwait u)
        ∧ (handleInteractiveResponse nowMs (some u) cat hist resp).history =
            markLastResponded hist u.phone aid
        ∧ (∀ fm, getMessage cat (aid ++ jsToLower resp) = some fm →
            (handleInteractiveResponse nowMs (some u) cat hist resp).sends =
              [(personalizeMessage fm.message u.firstName, aid ++ jsToLower resp)])
        ∧ (getMessage cat (aid ++ jsToLower resp) = none →
            (handleInteractiveResponse nowMs (some u) cat hist resp).sends =
              [(genericFollowupText, "generic_followup")])) := by
  constructor
  · intro hnc
    simp [handleInteractiveResponse, h1, h2, h3, h4, h5, hnc]
  · intro hc
    refine ⟨?_, ?_, ?_, ?_, ?_⟩
    · simp [handleInteractiveResponse, h1, h2, h3, h4, h5, hc]
    · simp [handleInteractiveResponse, h1, h2, h3, h4, h5, hc]
    · simp [handleInteractiveResponse, h1, h2, h3, h4, h5, hc]
    · intro fm hfm
      simp [handleInteractiveResponse, h1, h2, h3, h4, h5, hc, hfm]
    · intro hnone
      simp [handleInteractiveResponse, h1, h2, h3, h4, h5, hc, hnone]

/-- Witness for C6: in the sample world, 1000 ms after the template was
sent, reply E is reprompted and leaves the state unchanged while reply B
is accepted and clears it. -/
theorem interactive_reply_validation_witness :
    (handleInteractiveResponse 1000 (some sampleAwaitingUser) sampleCatalog
        sampleHistory "E").action = some "invalid_response"
    ∧ (handleInteractiveResponse 1000 (some sampleAwaitingUser) sampleCatalog
        sampleHistory "E").user = some sampleAwaitingUser
    ∧ (handleInteractiveResponse 1000 (some sampleAwaitingUser) sampleCatalog
        sampleHistory "B").action = some "interactive_response"
    ∧ (handleInteractiveResponse 1000 (some sampleAwaitingUser) sampleCatalog
        sampleHistory "B").user = some (clearAwait sampleAwaitingUser) := by
  have hE := (interactive_reply_validation 1000 sampleAwaitingUser sampleCatalog
    sampleHistory "E" "q1" ⟨"q1", "Do you prefer A) tea or B) coffee?", true⟩
    rfl (by decide) (by decide) rfl (by decide)).1 (by decide)
  have hB := (interactive_reply_validation 1000 sampleAwaitingUser sampleCatalog
    sampleHistory "B" "q1" ⟨"q1", "Do you prefer A) tea or B) coffee?", true⟩
    rfl (by decide) (by decide) rfl (by decide)).2 (by decide)
  refine ⟨?_, ?_, hB.1, hB.2.1⟩
  · rw [hE]
  · rw [hE]

/-- C7: a reply arriving more than 24 hours after the awaiting-response
timestamp is never interpreted as an interactive answer: the awaiting
state is silently cleared, the interactive step does not handle the
reply, and (when the reply is neither a system command nor a crisis
keyword) processing falls through to the fallback, which reports no
error and answers with the generic help text. -/
theorem stale_awaiting_response_cleared (nowMs : Int) (u : UserRec)
    (cat : List CatalogEntry) (hist : List HistRec) (body aid : String)
    (since : Int)
    (h1 : cleanOf body ≠ "STOP") (h2 : cleanOf body ≠ "START")
    (h3 : cleanOf body ≠ "RESET")
    (h4 : crisisKeywordLookup (cleanOf body) = none)
    (h5 : u.awaitingResponse = some aid) (h6 : aid ≠ "")
    (h7 : u.awaitingResponseSince = some since)
    (h8 : since + 86400000 < nowMs) :
    (handleInteractiveResponse nowMs (some u) cat hist (cleanOf body)).action = none
    ∧ (handleInteractiveResponse nowMs (some u) cat hist (cleanOf body)).user =
        some (clearAwait u)
    ∧ (handleInteractiveResponse nowMs (some u) cat hist (cleanOf body)).sends = []
    ∧ (handleInteractiveResponse nowMs (some u) cat hist (cleanOf body)).history = hist
    ∧ (processIncomingMessage nowMs (some u) cat hist body).handled = true
    ∧ (processIncomingMessage nowMs (some u) cat hist body).action = "unrecognized"
    ∧ (processIncomingMessage nowMs (some u) cat hist body).user =
        some (clearAwait u) := by
  have hexp : awaitingExpired u.awaitingResponseSince nowMs = true := by
    simp only [awaitingExpired, h7, Option.getD_some, decide_eq_true_eq]
    omega
  have hio : handleInteractiveResponse nowMs (some u) cat hist (cleanOf body) =
      ⟨some (clearAwait u), hist, [], none⟩ := by
    simp [handleInteractiveResponse, h5, h6, hexp]
  have hs := handleSystemCommands_eq_none (some u) cat (cleanOf body) h1 h2 h3
  have hc := handleCrisisKeywords_eq_none (some u) cat (cleanOf body) h4
  refine ⟨by rw [hio], by rw [hio], by rw [hio], by rw [hio], ?_, ?_, ?_⟩
  · simp [processIncomingMessage, hs, hc, hio]
  · simp [processIncomingMessage, hs, hc, hio]
  · simp [processIncomingMessage, hs, hc, hio]

/-- Witness for C7: in the sample world, the reply "hello" one day and
an hour after the q1 template was sent clears the awaiting state and is
answered by the fallback. -/
theorem stale_awaiting_response_cleared_witness :
    (processIncomingMessage 90000000 (some sampleAwaitingUser) sampleCatalog
        sampleHistory "hello").action = "unrecognized"
    ∧ (processIncomingMessage 90000000 (some sampleAwaitingUser) sampleCatalog
        sampleHistory "hello").user = some (clearAwait sampleAwaitingUser) := by
  have h := stale_awaiting_response_cleared 90000000 sampleAwaitingUser
    sampleCatalog sampleHistory "hello" "q1" 0 (by decide) (by decide)
    (by decide) (by decide) rfl (by decide) rfl (by decide)
  exact ⟨h.2.2.2.2.2.1, h.2.2.2.2.2.2⟩

theorem mem_matchParenAux_isOption :
    ∀ (n : Nat) (rest : List Char), rest.length ≤ n → ∀ (a c : Char),
      c ∈ matchParenAux a rest → isOptionChar c = true := by
  intro n
  induction n with
  | zero =>
    intro rest hlen a c hc
    cases rest with
    | nil => simp [matchParenAux] at hc
    | cons b t => simp at hlen
  | succ n ih =>
    intro rest hlen a c hc
    cases rest with
    | nil => simp [matchParenAux] at hc
    | cons b t =>
      cases t with
      | nil =>
        simp only [matchParenAux] at hc
        by_cases hcond : (isOptionChar a && b == ')') = true
        · rw [if_pos hcond] at hc
          simp at hc
          subst hc
          exact ((Bool.and_eq_true _ _).mp hcond).1
        · rw [if_neg hcond] at hc
          simp [matchParenAux] at hc
      | cons c2 t2 =>
        simp only [matchParenAux] at hc
        by_cases hcond : (isOptionChar a && b == ')') = true
        · rw [if_pos hcond] at hc
          rcases List.mem_cons.mp hc with h | h
          · subst h
            exact ((Bool.and_eq_true _ _).mp hcond).1
          · exact ih t2 (by simp at hlen ⊢; omega) c2 c h
        · rw [if_neg hcond] at hc
          exact ih (c2 :: t2) (by simp at hlen ⊢; omega) b c hc

theorem mem_matchSlashAux_isOption :
    ∀ (rest : List Char) (a c : Char),
      c ∈ matchSlashAux a rest → isOptionChar c = true := by
  intro rest
  induction rest with
  | nil =>
    intro a c hc
    simp only [matchSlashAux] at hc
    by_cases ha : isOptionChar a = true
    · rw [if_pos ha] at hc
      simp at hc
      subst hc
      exact ha
    · rw [if_neg ha] at hc
      simp at hc
  | cons b t ih =>
    intro a c hc
    simp only [matchSlashAux] at hc
    rcases List.mem_append.mp hc with h | h
    · by_cases hcond : (isOptionChar a && b == '/') = true
      · rw [if_pos hcond] at h
        simp at h
        subst h
        exact ((Bool.and_eq_true _ _).mp hcond).1
      · rw [if_neg hcond] at h
        simp at h
    · exact ih b c h

theorem isOptionChar_cases (c : Char) (h : isOptionChar c = true) :
    c = 'A' ∨ c = 'B' ∨ c = 'C' ∨ c = 'D' := by
  simp only [isOptionChar, Bool.or_eq_true, beq_iff_eq] at h
  tauto

theorem extractResponseOptions_subset (text : String) :
    ∀ o ∈ extractResponseOptions text, o ∈ (["A", "B", "C", "D"] : List String) := by
  intro o ho
  simp only [extractResponseOptions] at ho
  have hofc : ∃ c, isOptionChar c = true ∧ o = Char.toString c := by
    split_ifs at ho with hp
    · rcases List.mem_map.mp ho with ⟨c, hc, rfl⟩
      refine ⟨c, ?_, rfl⟩
      cases hd : text.data with
      | nil =>
        rw [hd] at hc
        simp [matchParen] at hc
      | cons a rest =>
        rw [hd] at hc
        simp only [matchParen] at hc
        exact mem_matchParenAux_isOption rest.length rest (Nat.le_refl _) a c hc
    · rcases List.mem_map.mp ho with ⟨c, hc, rfl⟩
      refine ⟨c, ?_, rfl⟩
      cases hd : text.data with
      | nil =>
        rw [hd] at hc
        simp [matchSlash] at hc
      | cons a rest =>
        rw [hd] at hc
        simp only [matchSlash] at hc
        exact mem_matchSlashAux_isOption rest a c hc
  rcases hofc with ⟨c, hc, rfl⟩
  rcases isOptionChar_cases c hc with h | h | h | h <;> subst h <;> decide

/-- C10: the option set inferred at reply time from any template body is
a subset of A, B, C, D, so no reply letter beyond D is ever accepted as
an interactive answer; and a recipient awaiting a response on a template
whose body parses to no options has the awaiting state cleared and the
reply processed by the fallback path instead. -/
theorem interactive_options_bounded (text : String) (nowMs : Int) (u : UserRec)
    (cat : List CatalogEntry) (hist : List HistRec) (resp aid : String)
    (tmpl : CatalogEntry) (body : String) :
    (∀ o ∈ extractResponseOptions text, o ∈ (["A", "B", "C", "D"] : List String))
    ∧ ((handleInteractiveResponse nowMs (some u) cat hist resp).action =
          some "interactive_response" →
        resp ∈ (["A", "B", "C", "D"] : List String))
    ∧ (u.awaitingResponse = some aid → aid ≠ "" →
        awaitingExpired u.awaitingResponseSince nowMs = false →
        getMessage cat aid = some tmpl →
        extractResponseOptions tmpl.message = [] →
        (handleInteractiveResponse nowMs (some u) cat hist (cleanOf body)).action =
          none
        ∧ (handleInteractiveResponse nowMs (some u) cat hist (cleanOf body)).user =
            some (clearAwait u)
        ∧ (cleanOf body ≠ "STOP" → cleanOf body ≠ "START" → cleanOf body ≠ "RESET" →
            crisisKeywordLookup (cleanOf body) = none →
            (processIncomingMessage nowMs (some u) cat hist body).action =
              "unrecognized"
            ∧ (processIncomingMessage nowMs (some u) cat hist body).handled =
                true)) := by
  refine ⟨extractResponseOptions_subset text, ?_, ?_⟩
  · intro hact
    cases ha : u.awaitingResponse with
    | none => simp [handleInteractiveResponse, ha] at hact
    | some aid2 =>
      by_cases h2 : aid2 = ""
      · simp [handleInteractiveResponse, ha, h2] at hact
      · by_cases hexp : awaitingExpired u.awaitingResponseSince nowMs = true
        · simp [handleInteractiveResponse, ha, h2, hexp] at hact
        · cases hm : getMessage cat aid2 with
          | none => simp [handleInteractiveResponse, ha, h2, hexp, hm] at hact
          | some om =>
            by_cases hopt : extractResponseOptions om.message = []
            · simp [handleInteractiveResponse, ha, h2, hexp, hm, hopt] at hact
            · by_cases hmem : resp ∈ extractResponseOptions om.message
              · exact extractResponseOptions_subset om.message resp hmem
              · simp [handleInteractiveResponse, ha, h2, hexp, hm, hopt, hmem] at hact
  · intro h1 h2 h3 h4 h5
    have hio : handleInteractiveResponse nowMs (some u) cat hist (cleanOf body) =
        ⟨some (clearAwait u), hist, [], none⟩ := by
      simp [handleInteractiveResponse, h1, h2, h3, h4, h5]
    refine ⟨by rw [hio], by rw [hio], ?_⟩
    intro hs1 hs2 hs3 hck
    have hsys := handleSystemCommands_eq_none (some u) cat (cleanOf body) hs1 hs2 hs3
    have hcr := handleCrisisKeywords_eq_none (some u) cat (cleanOf body) hck
    constructor
    · simp [processIncomingMessage, hsys, hcr, hio]
    · simp [processIncomingMessage, hsys, hcr, hio]

/-- Witness for C10: a recipient awaiting a reply to a template whose
body has no parseable options; the reply B is not treated as an
interactive answer and falls through to the fallback. -/
theorem interactive_options_bounded_witness :
    (handleInteractiveResponse 1000 (some sampleNoOptUser) sampleNoOptCatalog []
        (cleanOf "B")).action = none
    ∧ (processIncomingMessage 1000 (some sampleNoOptUser) sampleNoOptCatalog []
        "B").action = "unrecognized" := by
  have h := (interactive_options_bounded "x" 1000 sampleNoOptUser
    sampleNoOptCatalog [] "B" "q2" ⟨"q2", "How are you today?", true⟩ "B").2.2
    rfl (by decide) (by decide) rfl (by decide)
  exact ⟨h.1, (h.2.2 (by decide) (by decide) (by decide) (by decide)).1⟩
